import Mathlib

/-!
Verification of the dialect-aware line matcher (matcher.go) of the gherkin3
lexical layer. Strings are modelled as lists of characters; the matcher's
mutable receiver is modelled by explicit state passing: every match operation
returns the (possibly updated) matcher together with the ok flag, the optional
token and the optional error of the Go function. A Go slice expression that can
violate its bounds is modelled as an Option, with none standing for the
runtime panic.
-/

namespace Gherkin

/-- Strings are modelled as lists of characters. -/
abbrev Str := List Char

/-- Modelled from the spec: whitespace for the external line record's trimming
and indent counting (section 4.1; the line type is not part of the given
source file). -/
def isWSChar (c : Char) : Bool := c = ' ' || c = '\t'

/-- Modelled from the spec: remove leading and trailing whitespace, for the
line record's trimmed text. -/
def trimWS (s : Str) : Str :=
  ((s.dropWhile isWSChar).reverse.dropWhile isWSChar).reverse

/-- Go standard library strings.Trim with cutset " ": remove leading and
trailing space characters. -/
def trimSpaces (s : Str) : Str :=
  ((s.dropWhile (fun c => c = ' ')).reverse.dropWhile (fun c => c = ' ')).reverse

/-- Go standard library strings.Split with a single-character separator. -/
def splitOn1 (s : Str) (sep : Char) : List Str := List.splitOn sep s

/-- Go slice expression s[lo:hi]: defined when lo ≤ hi ≤ len(s), otherwise the
program panics with a slice-bounds error, modelled as none. -/
def goSlice (s : Str) (lo hi : Nat) : Option Str :=
  if lo ≤ hi ∧ hi ≤ s.length then some ((s.take hi).drop lo) else none

/-- Modelled from the spec: the external line record consumed by the matcher
(section 4.1); its type is defined outside the provided source file.
lineNumber is 1-based, lineText is the raw text and eofFlag marks the
synthetic end-of-input line. -/
structure Line where
  lineNumber : Nat
  lineText : Str
  eofFlag : Bool
  deriving DecidableEq, Repr

/-- Modelled from the spec: the trimmed text has leading and trailing
whitespace removed. -/
def Line.trimmedLineText (l : Line) : Str := trimWS l.lineText

/-- Modelled from the spec: the indent is the count of leading whitespace
characters of the raw text. -/
def Line.Indent (l : Line) : Nat := (l.lineText.takeWhile isWSChar).length

/-- Modelled from the spec: query for the synthetic end-of-input line. -/
def Line.IsEof (l : Line) : Bool := l.eofFlag

/-- Modelled from the spec: a line is empty when it is blank after trimming. -/
def Line.IsEmpty (l : Line) : Bool := l.trimmedLineText.isEmpty

/-- Modelled from the spec: prefix test against the trimmed text. -/
def Line.StartsWith (l : Line) (p : Str) : Bool := p.isPrefixOf l.trimmedLineText

/-- matcher.go: DEFAULT_DIALECT. -/
def DEFAULT_DIALECT : Str := "en".toList

/-- matcher.go: COMMENT_PREFIX. -/
def COMMENT_PREFIX : Str := "#".toList

/-- matcher.go: TAG_PREFIX. -/
def TAG_PREFIX : Str := "@".toList

/-- matcher.go: TITLE_KEYWORD_SEPARATOR. -/
def TITLE_KEYWORD_SEPARATOR : Str := ":".toList

/-- matcher.go: TABLE_CELL_SEPARATOR. -/
def TABLE_CELL_SEPARATOR : Str := "|".toList

/-- matcher.go: DOCSTRING_SEPARATOR. -/
def DOCSTRING_SEPARATOR : Str := "\"\"\"".toList

/-- matcher.go: DOCSTRING_ALTERNATIVE_SEPARATOR. -/
def DOCSTRING_ALTERNATIVE_SEPARATOR : Str := "```".toList

/-- Modelled from the spec: the token kinds (section 3); the enumeration is
defined outside the provided source file. None is the zero value a freshly
allocated token carries before a rule assigns its kind. -/
inductive TokenType where
  | None
  | EOF
  | Empty
  | Comment
  | TagLine
  | FeatureLine
  | BackgroundLine
  | ScenarioLine
  | ScenarioOutlineLine
  | ExamplesLine
  | StepLine
  | DocStringSeparator
  | TableRow
  | Language
  | Other
  deriving DecidableEq, Repr

/-- Modelled from the spec: a source location, line and 1-based column. -/
structure Location where
  line : Nat
  column : Nat
  deriving DecidableEq, Repr

/-- Modelled from the spec: a column-anchored fragment of a line (one tag or
one table cell). -/
structure LineSpan where
  column : Nat
  text : Str
  deriving DecidableEq, Repr

/-- Modelled from the spec: the token record (section 3). Zero values of the
Go struct are the empty string for keyword and text and the empty list for
items; typ is the field named Type in Go, gherkinDialect carries the
matcher's language code at token creation. -/
structure Token where
  typ : TokenType
  location : Location
  gherkinDialect : Str
  keyword : Str
  text : Str
  items : List LineSpan
  deriving DecidableEq, Repr

/-- Modelled from the spec: the structured error of the language rule, a
human-readable message together with the offending token's location. -/
structure parseError where
  msg : Str
  loc : Location
  deriving DecidableEq, Repr

/-- Modelled from the spec: an immutable dialect record exposing the ordered
keyword lists for each construct (section 6); defined outside the provided
source file. -/
structure GherkinDialect where
  featureKeywords : List Str
  backgroundKeywords : List Str
  scenarioKeywords : List Str
  scenarioOutlineKeywords : List Str
  examplesKeywords : List Str
  stepKeywords : List Str
  deriving DecidableEq, Repr

/-- Modelled from the spec: the dialect provider, a read-only lookup from a
language code to a dialect or absent (the Go GetDialect returns a possibly
nil pointer). -/
abbrev GherkinDialectProvider := Str → Option GherkinDialect

/-- matcher.go: the matcher struct. The compiled languagePattern field is a
constant regular expression and is embedded as the function
langPragmaCapture below; the dialect field models the dereferenced dialect
record behind the Go pointer. -/
structure Matcher where
  gdp : GherkinDialectProvider
  lang : Str
  dialect : GherkinDialect
  activeDocStringSeparator : Str
  indentToRemove : Nat

/-- The triple (ok, token, err) returned by a Go match method, together with
the state of the receiver after the call. -/
structure MatchResult where
  matcher : Matcher
  ok : Bool
  token : Option Token
  err : Option parseError

/-- matcher.go: newTokenAtLocation; column is index + 1 and the token carries
the matcher's current language code. -/
def Matcher.newTokenAtLocation (m : Matcher) (line index : Nat) : Token :=
  { typ := TokenType.None
    location := ⟨line, index + 1⟩
    gherkinDialect := m.lang
    keyword := []
    text := []
    items := [] }

/-- matcher.go: MatchEOF. -/
def Matcher.MatchEOF (m : Matcher) (line : Line) : MatchResult :=
  if line.IsEof then
    ⟨m, true,
      some { m.newTokenAtLocation line.lineNumber line.Indent with
        typ := TokenType.EOF }, none⟩
  else ⟨m, false, none, none⟩

/-- matcher.go: MatchEmpty. -/
def Matcher.MatchEmpty (m : Matcher) (line : Line) : MatchResult :=
  if line.IsEmpty then
    ⟨m, true,
      some { m.newTokenAtLocation line.lineNumber line.Indent with
        typ := TokenType.Empty }, none⟩
  else ⟨m, false, none, none⟩

/-- matcher.go: MatchComment; the token is created at index 0 and carries the
raw line text. -/
def Matcher.MatchComment (m : Matcher) (line : Line) : MatchResult :=
  if line.StartsWith COMMENT_PREFIX then
    ⟨m, true,
      some { m.newTokenAtLocation line.lineNumber 0 with
        typ := TokenType.Comment, text := line.lineText }, none⟩
  else ⟨m, false, none, none⟩

/-- matcher.go: the loop body of MatchTagLine; for each split fragment, a span
with the running column and the at-sign plus the space-trimmed fragment is
appended when the trimmed fragment is non-empty, and the running column
advances by the raw fragment length plus one. -/
def tagSpans (column : Nat) : List Str → List LineSpan
  | [] => []
  | s :: rest =>
    let txt := trimSpaces s
    let tail := tagSpans (column + s.length + 1) rest
    if txt.isEmpty then tail else ⟨column, TAG_PREFIX ++ txt⟩ :: tail

/-- matcher.go: MatchTagLine; the running column starts at the line indent. -/
def Matcher.MatchTagLine (m : Matcher) (line : Line) : MatchResult :=
  if line.StartsWith TAG_PREFIX then
    let splits := splitOn1 line.trimmedLineText '@'
    ⟨m, true,
      some { m.newTokenAtLocation line.lineNumber line.Indent with
        typ := TokenType.TagLine, items := tagSpans line.Indent splits }, none⟩
  else ⟨m, false, none, none⟩

/-- matcher.go: matchTitleLine; keywords are tried in list order, a keyword
matches when the trimmed text starts with the keyword followed by the title
separator, and the token text is the space-trimmed remainder. -/
def Matcher.matchTitleLine (m : Matcher) (line : Line) (tokenType : TokenType) :
    List Str → MatchResult
  | [] => ⟨m, false, none, none⟩
  | keyword :: rest =>
    if line.StartsWith (keyword ++ TITLE_KEYWORD_SEPARATOR) then
      ⟨m, true,
        some { m.newTokenAtLocation line.lineNumber line.Indent with
          typ := tokenType
          keyword := keyword
          text := trimSpaces (line.trimmedLineText.drop (keyword.length + 1)) },
        none⟩
    else m.matchTitleLine line tokenType rest

/-- matcher.go: MatchFeatureLine. -/
def Matcher.MatchFeatureLine (m : Matcher) (line : Line) : MatchResult :=
  m.matchTitleLine line TokenType.FeatureLine m.dialect.featureKeywords

/-- matcher.go: MatchBackgroundLine. -/
def Matcher.MatchBackgroundLine (m : Matcher) (line : Line) : MatchResult :=
  m.matchTitleLine line TokenType.BackgroundLine m.dialect.backgroundKeywords

/-- matcher.go: MatchScenarioLine. -/
def Matcher.MatchScenarioLine (m : Matcher) (line : Line) : MatchResult :=
  m.matchTitleLine line TokenType.ScenarioLine m.dialect.scenarioKeywords

/-- matcher.go: MatchScenarioOutlineLine. -/
def Matcher.MatchScenarioOutlineLine (m : Matcher) (line : Line) : MatchResult :=
  m.matchTitleLine line TokenType.ScenarioOutlineLine m.dialect.scenarioOutlineKeywords

/-- matcher.go: MatchExamplesLine. -/
def Matcher.MatchExamplesLine (m : Matcher) (line : Line) : MatchResult :=
  m.matchTitleLine line TokenType.ExamplesLine m.dialect.examplesKeywords

/-- matcher.go: the loop of MatchStepLine; a step keyword matches when the
trimmed text starts with the raw keyword, with no separator. -/
def Matcher.matchStepKeywords (m : Matcher) (line : Line) : List Str → MatchResult
  | [] => ⟨m, false, none, none⟩
  | keyword :: rest =>
    if line.StartsWith keyword then
      ⟨m, true,
        some { m.newTokenAtLocation line.lineNumber line.Indent with
          typ := TokenType.StepLine
          keyword := keyword
          text := trimSpaces (line.trimmedLineText.drop keyword.length) }, none⟩
    else m.matchStepKeywords line rest

/-- matcher.go: MatchStepLine. -/
def Matcher.MatchStepLine (m : Matcher) (line : Line) : MatchResult :=
  m.matchStepKeywords line m.dialect.stepKeywords

/-- matcher.go: MatchDocStringSeparator; with an active delimiter a line
starting with it closes the doc string, clearing the delimiter and the
indent to remove; with no active delimiter a line starting with either
recognized literal opens one, recording the delimiter, the line's indent and
the trailing content type. -/
def Matcher.MatchDocStringSeparator (m : Matcher) (line : Line) : MatchResult :=
  if m.activeDocStringSeparator ≠ [] then
    if line.StartsWith m.activeDocStringSeparator then
      ⟨{ m with indentToRemove := 0, activeDocStringSeparator := [] }, true,
        some { m.newTokenAtLocation line.lineNumber line.Indent with
          typ := TokenType.DocStringSeparator }, none⟩
    else ⟨m, false, none, none⟩
  else
    let newSep : Str :=
      if line.StartsWith DOCSTRING_SEPARATOR then DOCSTRING_SEPARATOR
      else if line.StartsWith DOCSTRING_ALTERNATIVE_SEPARATOR then
        DOCSTRING_ALTERNATIVE_SEPARATOR
      else []
    if newSep.isEmpty then ⟨m, false, none, none⟩
    else
      ⟨{ m with
          activeDocStringSeparator := newSep
          indentToRemove := line.Indent }, true,
        some { m.newTokenAtLocation line.lineNumber line.Indent with
          typ := TokenType.DocStringSeparator
          text := line.trimmedLineText.drop newSep.length }, none⟩

/-- matcher.go: the loop body of MatchTableRow; for each cell fragment, ind
counts its leading spaces, the span column is the running column plus ind
plus one, the span text is the fragment trimmed of spaces, and the running
column advances by the raw fragment length plus one. -/
def tableCells (column : Nat) : List Str → List LineSpan
  | [] => []
  | txt :: rest =>
    let ind := (txt.takeWhile (fun c => c = ' ')).length
    ⟨column + ind + 1, trimSpaces txt⟩ :: tableCells (column + txt.length + 1) rest

/-- matcher.go: MatchTableRow; the trimmed text is space-trimmed again, its
first and last characters are dropped by the slice expression
ttxt[1 : len(ttxt)-1] (a panic when out of bounds, modelled as none) and the
rest is split on the cell separator. The running column starts at the line
indent plus one. -/
def Matcher.MatchTableRow (m : Matcher) (line : Line) : Option MatchResult :=
  if line.StartsWith TABLE_CELL_SEPARATOR then
    let ttxt := trimSpaces line.trimmedLineText
    match goSlice ttxt 1 (ttxt.length - 1) with
    | none => none
    | some inner =>
      some ⟨m, true,
        some { m.newTokenAtLocation line.lineNumber line.Indent with
          typ := TokenType.TableRow
          items := tableCells (line.Indent + 1) (splitOn1 inner '|') }, none⟩
  else some ⟨m, false, none, none⟩

/-- Space characters of the RE2 character class backslash-s, used by the
compiled languagePattern. -/
def isReSpace (c : Char) : Bool :=
  c = ' ' || c = '\t' || c = '\n' || c = '\x0c' || c = '\r'

/-- Characters of the language-code character class of languagePattern:
letters, hyphen and underscore. -/
def isLangCodeChar (c : Char) : Bool :=
  ('a' ≤ c && c ≤ 'z') || ('A' ≤ c && c ≤ 'Z') || c = '-' || c = '_'

/-- matcher.go: the compiled languagePattern regular expression, anchored at
both ends, applied with FindStringSubmatch; returns the capture group (the
language code) when the whole string has the pragma shape. Every repeated
space class and the code class are followed by a character they cannot
match, so the greedy scan is deterministic and equals this parse. -/
def langPragmaCapture (s : Str) : Option Str :=
  match s.dropWhile isReSpace with
  | '#' :: r1 =>
    let r2 := r1.dropWhile isReSpace
    if ("language".toList).isPrefixOf r2 then
      match (r2.drop ("language".toList).length).dropWhile isReSpace with
      | ':' :: r3 =>
        let r4 := r3.dropWhile isReSpace
        let code := r4.takeWhile isLangCodeChar
        if code.isEmpty then none
        else if (r4.dropWhile isLangCodeChar).all isReSpace then some code
        else none
      | _ => none
    else none
  | _ => none

/-- matcher.go: MatchLanguage; on a structural match the token is created
before resolution (so it carries the previous language code in its dialect
field and the new code in its text), and on a failed resolution the state is
left unchanged and a structured error is returned. -/
def Matcher.MatchLanguage (m : Matcher) (line : Line) : MatchResult :=
  match langPragmaCapture line.trimmedLineText with
  | none => ⟨m, false, none, none⟩
  | some lang =>
    let token := { m.newTokenAtLocation line.lineNumber line.Indent with
      typ := TokenType.Language, text := lang }
    match m.gdp lang with
    | none =>
      ⟨m, true, some token,
        some ⟨"Language not supported: ".toList ++ lang, token.location⟩⟩
    | some dialect =>
      ⟨{ m with lang := lang, dialect := dialect }, true, some token, none⟩

/-- matcher.go: the stripping loop of MatchOther; characters are consumed
while they are spaces and fewer than indentToRemove of them have been
consumed. -/
def otherStrip : Str → Nat → Nat
  | [], _ => 0
  | c :: rest, limit =>
    if c = ' ' then
      match limit with
      | 0 => 0
      | Nat.succ k => otherStrip rest k + 1
    else 0

/-- matcher.go: MatchOther, the always-matching fallback; the token is created
at index 0 and carries the raw text with up to indentToRemove leading spaces
stripped. -/
def Matcher.MatchOther (m : Matcher) (line : Line) : MatchResult :=
  ⟨m, true,
    some { m.newTokenAtLocation line.lineNumber 0 with
      typ := TokenType.Other
      text := line.lineText.drop (otherStrip line.lineText m.indentToRemove) },
    none⟩

/-- The four mutable matcher fields named by the frame property: language
code, dialect, active doc-string delimiter and indent to remove. -/
def Matcher.mutableState (m : Matcher) : Str × GherkinDialect × Str × Nat :=
  (m.lang, m.dialect, m.activeDocStringSeparator, m.indentToRemove)

/-- A concrete dialect for witnesses and counterexamples. -/
def testDialect : GherkinDialect :=
  { featureKeywords := ["Feature".toList]
    backgroundKeywords := ["Background".toList]
    scenarioKeywords := ["Scenario".toList]
    scenarioOutlineKeywords := ["Scenario Outline".toList]
    examplesKeywords := ["Examples".toList]
    stepKeywords := ["Given ".toList, "When ".toList, "Then ".toList] }

/-- A second concrete dialect, bound to the code fr by the test provider. -/
def frDialect : GherkinDialect :=
  { testDialect with stepKeywords := ["Soit ".toList] }

/-- A concrete dialect provider resolving the codes en and fr only. -/
def testGdp : GherkinDialectProvider := fun code =>
  if code = "en".toList then some testDialect
  else if code = "fr".toList then some frDialect
  else none

/-- A freshly constructed matcher over the test provider: default language,
no active doc-string delimiter, indent to remove zero. -/
def testMatcher : Matcher :=
  { gdp := testGdp
    lang := DEFAULT_DIALECT
    dialect := testDialect
    activeDocStringSeparator := []
    indentToRemove := 0 }

/-- A language pragma with a code the test provider cannot resolve. -/
def pragmaLineXX : Line := ⟨4, "# language: xx".toList, false⟩

/-- A language pragma with a code the test provider resolves. -/
def pragmaLineFr : Line := ⟨2, "# language: fr".toList, false⟩

/-- The tag line of the tag-span regression example. -/
def tagLine3 : Line := ⟨1, "@foo @bar  @baz".toList, false⟩

/-- The line of the keyword-order example. -/
def scenarioOutlineLine : Line := ⟨1, "Scenario Outline: X".toList, false⟩

/-- The keyword list of the keyword-order example, a prefix keyword before a
longer keyword extending it. -/
def orderKeywords : List Str := ["Scenario".toList, "Scenario Outline".toList]

/-- A malformed table row missing its trailing cell separator. -/
def malformedRowLine : Line := ⟨1, "| a".toList, false⟩

/-- The table row of the cell-span regression example. -/
def tableRowLine : Line := ⟨1, "| a | bb |".toList, false⟩

/-- A line whose trimmed text is the single cell-separator character. -/
def lonePipeLine : Line := ⟨1, "|".toList, false⟩

/-- A doc-string opening line with trailing content type, at indent 2. -/
def docOpenLine : Line := ⟨7, "  \"\"\"json".toList, false⟩

/-- A doc-string closing line at indent 2. -/
def docCloseLine : Line := ⟨9, "  \"\"\"".toList, false⟩

/-- The synthetic end-of-input line. -/
def eofLine : Line := ⟨5, [], true⟩

/-! Helper lemmas: the read-only operations return the receiver unchanged and
never return an error; the language rule errs exactly on an unresolvable
pragma; the doc-string rule's open and close transitions. -/

theorem MatchEOF_frame (m : Matcher) (l : Line) :
    (m.MatchEOF l).matcher = m ∧ (m.MatchEOF l).err = none := by
  unfold Matcher.MatchEOF
  split <;> exact ⟨rfl, rfl⟩

theorem MatchEmpty_frame (m : Matcher) (l : Line) :
    (m.MatchEmpty l).matcher = m ∧ (m.MatchEmpty l).err = none := by
  unfold Matcher.MatchEmpty
  split <;> exact ⟨rfl, rfl⟩

theorem MatchComment_frame (m : Matcher) (l : Line) :
    (m.MatchComment l).matcher = m ∧ (m.MatchComment l).err = none := by
  unfold Matcher.MatchComment
  split <;> exact ⟨rfl, rfl⟩

theorem MatchTagLine_frame (m : Matcher) (l : Line) :
    (m.MatchTagLine l).matcher = m ∧ (m.MatchTagLine l).err = none := by
  unfold Matcher.MatchTagLine
  split <;> exact ⟨rfl, rfl⟩

theorem matchTitleLine_frame (m : Matcher) (l : Line) (tt : TokenType) (ks : List Str) :
    (m.matchTitleLine l tt ks).matcher = m ∧ (m.matchTitleLine l tt ks).err = none := by
  induction ks with
  | nil => exact ⟨rfl, rfl⟩
  | cons k rest ih =>
    simp only [Matcher.matchTitleLine]
    split
    · exact ⟨rfl, rfl⟩
    · exact ih

theorem matchStepKeywords_frame (m : Matcher) (l : Line) (ks : List Str) :
    (m.matchStepKeywords l ks).matcher = m ∧ (m.matchStepKeywords l ks).err = none := by
  induction ks with
  | nil => exact ⟨rfl, rfl⟩
  | cons k rest ih =>
    simp only [Matcher.matchStepKeywords]
    split
    · exact ⟨rfl, rfl⟩
    · exact ih

theorem MatchDocStringSeparator_err (m : Matcher) (l : Line) :
    (m.MatchDocStringSeparator l).err = none := by
  unfold Matcher.MatchDocStringSeparator
  split
  · split <;> rfl
  · split
    · rfl
    · split <;> rfl

theorem MatchTableRow_frame (m : Matcher) (l : Line) :
    (m.MatchTableRow l).elim True (fun r => r.matcher = m ∧ r.err = none) := by
  unfold Matcher.MatchTableRow
  split
  · dsimp only
    split
    · exact trivial
    · exact ⟨rfl, rfl⟩
  · exact ⟨rfl, rfl⟩

theorem MatchOther_frame (m : Matcher) (l : Line) :
    (m.MatchOther l).matcher = m ∧ (m.MatchOther l).err = none :=
  ⟨rfl, rfl⟩

theorem MatchLanguage_err_iff (m : Matcher) (l : Line) :
    (m.MatchLanguage l).err.isSome = true ↔
      ∃ c, langPragmaCapture l.trimmedLineText = some c ∧ m.gdp c = none := by
  rcases h : langPragmaCapture l.trimmedLineText with _ | c
  · simp [Matcher.MatchLanguage, h]
  · rcases hg : m.gdp c with _ | d
    · simp [Matcher.MatchLanguage, h, hg]
    · simp [Matcher.MatchLanguage, h, hg]

theorem MatchDocStringSeparator_open (m : Matcher) (l : Line)
    (h0 : m.activeDocStringSeparator = [])
    (h1 : l.StartsWith DOCSTRING_SEPARATOR = true) :
    m.MatchDocStringSeparator l =
      ⟨{ m with
          activeDocStringSeparator := DOCSTRING_SEPARATOR
          indentToRemove := l.Indent }, true,
        some { m.newTokenAtLocation l.lineNumber l.Indent with
          typ := TokenType.DocStringSeparator
          text := l.trimmedLineText.drop DOCSTRING_SEPARATOR.length }, none⟩ := by
  have hsep : DOCSTRING_SEPARATOR.isEmpty = false := by decide
  simp [Matcher.MatchDocStringSeparator, h0, h1, hsep]

theorem MatchDocStringSeparator_close (m : Matcher) (l : Line)
    (h0 : m.activeDocStringSeparator ≠ [])
    (h1 : l.StartsWith m.activeDocStringSeparator = true) :
    m.MatchDocStringSeparator l =
      ⟨{ m with indentToRemove := 0, activeDocStringSeparator := [] }, true,
        some { m.newTokenAtLocation l.lineNumber l.Indent with
          typ := TokenType.DocStringSeparator }, none⟩ := by
  simp [Matcher.MatchDocStringSeparator, h0, h1]

/-! The claims. -/

/-- C1: on a language-pragma line whose code the provider cannot resolve,
MatchLanguage still matches and produces a Language token carrying the code
as its text and the line's location, returns a structured error naming the
unsupported code at the token's location, and leaves the matcher unchanged;
moreover an unresolvable language pragma is the only condition under which
any match operation returns a non-nil error. -/
theorem language_unresolvable_is_only_error (m : Matcher) (line : Line) (code : Str)
    (h1 : langPragmaCapture line.trimmedLineText = some code)
    (h2 : m.gdp code = none) :
    (m.MatchLanguage line).ok = true ∧
    (m.MatchLanguage line).token = some
      { typ := TokenType.Language
        location := ⟨line.lineNumber, line.Indent + 1⟩
        gherkinDialect := m.lang
        keyword := []
        text := code
        items := [] } ∧
    (m.MatchLanguage line).err = some
      ⟨"Language not supported: ".toList ++ code, ⟨line.lineNumber, line.Indent + 1⟩⟩ ∧
    (m.MatchLanguage line).matcher = m ∧
    (∀ m' : Matcher, ∀ l' : Line,
      (m'.MatchEOF l').err = none ∧
      (m'.MatchEmpty l').err = none ∧
      (m'.MatchComment l').err = none ∧
      (m'.MatchTagLine l').err = none ∧
      (m'.MatchFeatureLine l').err = none ∧
      (m'.MatchBackgroundLine l').err = none ∧
      (m'.MatchScenarioLine l').err = none ∧
      (m'.MatchScenarioOutlineLine l').err = none ∧
      (m'.MatchExamplesLine l').err = none ∧
      (m'.MatchStepLine l').err = none ∧
      (m'.MatchDocStringSeparator l').err = none ∧
      ((m'.MatchTableRow l').elim True fun r => r.err = none) ∧
      (m'.MatchOther l').err = none ∧
      ((m'.MatchLanguage l').err.isSome = true ↔
        ∃ c, langPragmaCapture l'.trimmedLineText = some c ∧ m'.gdp c = none)) := by
  refine ⟨?_, ?_, ?_, ?_, ?_⟩
  · simp [Matcher.MatchLanguage, h1, h2]
  · simp [Matcher.MatchLanguage, h1, h2, Matcher.newTokenAtLocation]
  · simp [Matcher.MatchLanguage, h1, h2, Matcher.newTokenAtLocation]
  · simp [Matcher.MatchLanguage, h1, h2]
  · intro m' l'
    refine ⟨(MatchEOF_frame m' l').2, (MatchEmpty_frame m' l').2,
      (MatchComment_frame m' l').2, (MatchTagLine_frame m' l').2,
      (matchTitleLine_frame m' l' TokenType.FeatureLine m'.dialect.featureKeywords).2,
      (matchTitleLine_frame m' l' TokenType.BackgroundLine m'.dialect.backgroundKeywords).2,
      (matchTitleLine_frame m' l' TokenType.ScenarioLine m'.dialect.scenarioKeywords).2,
      (matchTitleLine_frame m' l' TokenType.ScenarioOutlineLine m'.dialect.scenarioOutlineKeywords).2,
      (matchTitleLine_frame m' l' TokenType.ExamplesLine m'.dialect.examplesKeywords).2,
      (matchStepKeywords_frame m' l' m'.dialect.stepKeywords).2,
      MatchDocStringSeparator_err m' l', ?_,
      (MatchOther_frame m' l').2, MatchLanguage_err_iff m' l'⟩
    have h := MatchTableRow_frame m' l'
    rcases e : m'.MatchTableRow l' with _ | r
    · simp [e]
    · rw [e] at h
      simpa using h.2

/-- C1 witness: the hypotheses hold and the theorem applies at the concrete
pragma with the unknown code xx against the test provider. -/
theorem language_unresolvable_witness :
    langPragmaCapture pragmaLineXX.trimmedLineText = some ("xx".toList) ∧
    testMatcher.gdp ("xx".toList) = none ∧
    (testMatcher.MatchLanguage pragmaLineXX).ok = true :=
  ⟨by decide, by decide,
    (language_unresolvable_is_only_error testMatcher pragmaLineXX ("xx".toList)
      (by decide) (by decide)).1⟩

/-- C2 counterexample: on the resolvable pragma fr, the Language token's
language field carries the previous code en, not the new code fr, because
the token is created before the state update. -/
theorem language_token_new_code_counterexample :
    langPragmaCapture pragmaLineFr.trimmedLineText = some ("fr".toList) ∧
    testMatcher.gdp ("fr".toList) = some frDialect ∧
    ((testMatcher.MatchLanguage pragmaLineFr).token.map Token.gherkinDialect) ≠
      some ("fr".toList) := by
  refine ⟨by decide, by decide, by decide⟩

/-- C2 amended: on a language-pragma line whose code resolves to a dialect,
MatchLanguage updates the matcher's current language and dialect for all
subsequent lines with no error; the Language token emitted by this very call
carries the previous language code in its language field (the token is
created before the update) and the new code in its text field. -/
theorem language_success_updates_state (m : Matcher) (line : Line) (code : Str)
    (d : GherkinDialect)
    (h1 : langPragmaCapture line.trimmedLineText = some code)
    (h2 : m.gdp code = some d) :
    (m.MatchLanguage line).ok = true ∧
    (m.MatchLanguage line).matcher.lang = code ∧
    (m.MatchLanguage line).matcher.dialect = d ∧
    ((m.MatchLanguage line).token.map Token.text) = some code ∧
    ((m.MatchLanguage line).token.map Token.gherkinDialect) = some m.lang ∧
    (m.MatchLanguage line).err = none := by
  refine ⟨?_, ?_, ?_, ?_, ?_, ?_⟩ <;>
    simp [Matcher.MatchLanguage, h1, h2, Matcher.newTokenAtLocation]

/-- C2 witness: the amended theorem applies at the concrete pragma fr against
the test provider. -/
theorem language_success_witness :
    langPragmaCapture pragmaLineFr.trimmedLineText = some ("fr".toList) ∧
    testMatcher.gdp ("fr".toList) = some frDialect ∧
    (testMatcher.MatchLanguage pragmaLineFr).matcher.lang = "fr".toList :=
  ⟨by decide, by decide,
    (language_success_updates_state testMatcher pragmaLineFr ("fr".toList) frDialect
      (by decide) (by decide)).2.1⟩

/-- C3 counterexample: the tag line at indent 0 does not yield the spans
(1, at-foo), (6, at-bar), (13, at-baz): the third span's column is 12, the
position of the at-sign marker, not 13. -/
theorem tagline_columns_counterexample :
    ((testMatcher.MatchTagLine tagLine3).token.map Token.items) ≠
      some [⟨1, "@foo".toList⟩, ⟨6, "@bar".toList⟩, ⟨13, "@baz".toList⟩] := by
  decide

/-- C3 amended: the tag line at indent 0 matches and yields exactly the three
spans (1, at-foo), (6, at-bar), (12, at-baz): each span's column points at
the tag's at-sign marker, not at the first character after it, with the
running column starting at the line indent and advancing by raw fragment
length plus one per split fragment (so the first tag's column is
indent + 1). -/
theorem tagline_spans_amended (m : Matcher) (n : Nat) :
    ((Matcher.MatchTagLine m ⟨n, "@foo @bar  @baz".toList, false⟩).ok = true) ∧
    ((Matcher.MatchTagLine m ⟨n, "@foo @bar  @baz".toList, false⟩).token.map Token.items) =
      some [⟨1, "@foo".toList⟩, ⟨6, "@bar".toList⟩, ⟨12, "@baz".toList⟩] := by
  exact ⟨rfl, rfl⟩

/-- C4 counterexample: with the keyword list [Scenario, Scenario Outline], the
line Scenario Outline: X does not match on the keyword Scenario, since its
trimmed text does not start with Scenario followed by the separator. -/
theorem title_keyword_order_counterexample :
    ((testMatcher.matchTitleLine scenarioOutlineLine TokenType.ScenarioLine
        orderKeywords).token.map Token.keyword) ≠ some ("Scenario".toList) := by
  decide

/-- C4 amended: the keyword-title matcher tries keywords in list order and
matches a keyword iff the trimmed text starts with the keyword followed by
the colon separator; on the line Scenario Outline: X with keyword list
[Scenario, Scenario Outline] the first keyword Scenario fails (the text does
not start with Scenario colon), so the match is on Scenario Outline, with
title text X. -/
theorem title_keyword_order_amended (m : Matcher) (n : Nat) :
    ((Matcher.matchTitleLine m ⟨n, "Scenario Outline: X".toList, false⟩
        TokenType.ScenarioLine orderKeywords).ok = true) ∧
    ((Matcher.matchTitleLine m ⟨n, "Scenario Outline: X".toList, false⟩
        TokenType.ScenarioLine orderKeywords).token.map fun t => (t.keyword, t.text)) =
      some ("Scenario Outline".toList, "X".toList) := by
  exact ⟨rfl, rfl⟩

/-- C5 counterexample: the malformed table row missing its trailing separator
does not decline: its trimmed text starts with the cell separator, so the
startsWith check passes and MatchTableRow reports a match. -/
theorem malformed_row_counterexample :
    ((testMatcher.MatchTableRow malformedRowLine).map MatchResult.ok) ≠ some false := by
  decide

/-- C5 amended: the startsWith check of MatchTableRow tests only the leading
cell separator, so a malformed row missing its trailing separator such as a
line with trimmed text bar-space-a still matches, with no error, the final
character of the trimmed text being dropped by the slicing: it yields the
single empty cell span at column 3 and does not fall through. -/
theorem malformed_row_amended (m : Matcher) (n : Nat) :
    ((Matcher.MatchTableRow m ⟨n, "| a".toList, false⟩).map fun r =>
        (r.ok, r.err, r.token.map Token.items)) =
      some (true, none, some [⟨3, []⟩]) := by
  exact rfl

/-- C6: starting with no active doc-string delimiter and indent-to-strip 0, a
line whose trimmed text starts with the triple-quote delimiter matches as an
open, setting the active delimiter to that literal and indent-to-strip to
the line's indent; a later line whose trimmed text starts with the same
delimiter matches as a close, emits a token with no text, and afterwards the
active delimiter and the indent-to-strip have returned to their initial
values. -/
theorem docstring_open_close_roundtrip (m : Matcher) (l1 l2 : Line)
    (h0 : m.activeDocStringSeparator = [])
    (h1 : m.indentToRemove = 0)
    (h2 : l1.StartsWith DOCSTRING_SEPARATOR = true)
    (h3 : l2.StartsWith DOCSTRING_SEPARATOR = true) :
    (m.MatchDocStringSeparator l1).ok = true ∧
    (m.MatchDocStringSeparator l1).matcher.activeDocStringSeparator = DOCSTRING_SEPARATOR ∧
    (m.MatchDocStringSeparator l1).matcher.indentToRemove = l1.Indent ∧
    ((m.MatchDocStringSeparator l1).matcher.MatchDocStringSeparator l2).ok = true ∧
    (((m.MatchDocStringSeparator l1).matcher.MatchDocStringSeparator l2).token.map
      Token.text) = some [] ∧
    ((m.MatchDocStringSeparator l1).matcher.MatchDocStringSeparator l2).matcher.activeDocStringSeparator =
      m.activeDocStringSeparator ∧
    ((m.MatchDocStringSeparator l1).matcher.MatchDocStringSeparator l2).matcher.indentToRemove =
      m.indentToRemove := by
  have hopen := MatchDocStringSeparator_open m l1 h0 h2
  have hm1 : (m.MatchDocStringSeparator l1).matcher =
      { m with
        activeDocStringSeparator := DOCSTRING_SEPARATOR
        indentToRemove := l1.Indent } := by rw [hopen]
  have hne : ((m.MatchDocStringSeparator l1).matcher).activeDocStringSeparator ≠ [] := by
    rw [hm1]
    show DOCSTRING_SEPARATOR ≠ []
    decide
  have h3' : l2.StartsWith ((m.MatchDocStringSeparator l1).matcher).activeDocStringSeparator = true := by
    rw [hm1]
    exact h3
  have hclose := MatchDocStringSeparator_close ((m.MatchDocStringSeparator l1).matcher) l2 hne h3'
  refine ⟨by rw [hopen], by rw [hm1], by rw [hm1], by rw [hclose], ?_, ?_, ?_⟩
  · rw [hclose]
    simp [Matcher.newTokenAtLocation]
  · rw [hclose, h0]
  · rw [hclose, h1]

/-- C6 witness: the round trip at the concrete open and close lines against
the fresh test matcher. -/
theorem docstring_roundtrip_witness :
    (testMatcher.activeDocStringSeparator = [] ∧ testMatcher.indentToRemove = 0 ∧
      docOpenLine.StartsWith DOCSTRING_SEPARATOR = true ∧
      docCloseLine.StartsWith DOCSTRING_SEPARATOR = true) ∧
    (testMatcher.MatchDocStringSeparator docOpenLine).ok = true :=
  ⟨⟨rfl, rfl, by decide, by decide⟩,
    (docstring_open_close_roundtrip testMatcher docOpenLine docCloseLine rfl rfl
      (by decide) (by decide)).1⟩

/-- C7: the table row at indent 0 matches and yields exactly the spans
(3, a) and (7, bb): each column points at the first non-space character of
its cell and each text is the cell fragment trimmed of surrounding
spaces. -/
theorem tablerow_cell_spans (m : Matcher) (n : Nat) :
    ((Matcher.MatchTableRow m ⟨n, "| a | bb |".toList, false⟩).map fun r =>
        (r.ok, r.token.map Token.items)) =
      some (true, some [⟨3, "a".toList⟩, ⟨7, "bb".toList⟩]) := by
  exact rfl

/-- C8: the matcher's mutable state, its language code, dialect, active
doc-string delimiter and indent-to-strip, is left unchanged by every match
operation other than MatchLanguage and MatchDocStringSeparator. -/
theorem only_language_and_docstring_mutate (m : Matcher) (line : Line) :
    (m.MatchEOF line).matcher.mutableState = m.mutableState ∧
    (m.MatchEmpty line).matcher.mutableState = m.mutableState ∧
    (m.MatchComment line).matcher.mutableState = m.mutableState ∧
    (m.MatchTagLine line).matcher.mutableState = m.mutableState ∧
    (m.MatchFeatureLine line).matcher.mutableState = m.mutableState ∧
    (m.MatchBackgroundLine line).matcher.mutableState = m.mutableState ∧
    (m.MatchScenarioLine line).matcher.mutableState = m.mutableState ∧
    (m.MatchScenarioOutlineLine line).matcher.mutableState = m.mutableState ∧
    (m.MatchExamplesLine line).matcher.mutableState = m.mutableState ∧
    (m.MatchStepLine line).matcher.mutableState = m.mutableState ∧
    ((m.MatchTableRow line).elim True fun r => r.matcher.mutableState = m.mutableState) ∧
    (m.MatchOther line).matcher.mutableState = m.mutableState := by
  refine ⟨congrArg Matcher.mutableState (MatchEOF_frame m line).1,
    congrArg Matcher.mutableState (MatchEmpty_frame m line).1,
    congrArg Matcher.mutableState (MatchComment_frame m line).1,
    congrArg Matcher.mutableState (MatchTagLine_frame m line).1,
    congrArg Matcher.mutableState (matchTitleLine_frame m line TokenType.FeatureLine m.dialect.featureKeywords).1,
    congrArg Matcher.mutableState (matchTitleLine_frame m line TokenType.BackgroundLine m.dialect.backgroundKeywords).1,
    congrArg Matcher.mutableState (matchTitleLine_frame m line TokenType.ScenarioLine m.dialect.scenarioKeywords).1,
    congrArg Matcher.mutableState (matchTitleLine_frame m line TokenType.ScenarioOutlineLine m.dialect.scenarioOutlineKeywords).1,
    congrArg Matcher.mutableState (matchTitleLine_frame m line TokenType.ExamplesLine m.dialect.examplesKeywords).1,
    congrArg Matcher.mutableState (matchStepKeywords_frame m line m.dialect.stepKeywords).1,
    ?_,
    congrArg Matcher.mutableState (MatchOther_frame m line).1⟩
  have h := MatchTableRow_frame m line
  rcases e : m.MatchTableRow line with _ | r
  · simp [e]
  · rw [e] at h
    simpa using congrArg Matcher.mutableState h.1

/-- C9 counterexample: on the end-of-input line at indent 0, the EOF token's
column is 1, not the line's indent 0: the column is the indent plus one. -/
theorem eof_column_counterexample :
    ((testMatcher.MatchEOF eofLine).token.map fun t => t.location.column) ≠
      some eofLine.Indent := by
  decide

/-- C9 amended: MatchEOF matches iff the line's isEof query is true, and the
emitted EOF token's column equals the line's indent plus one (normally 1,
per the 1-based column rule). -/
theorem eof_match_iff_column (m : Matcher) (line : Line) :
    (m.MatchEOF line).ok = line.IsEof ∧
    ((m.MatchEOF line).token.map fun t => (t.typ, t.location.column)) =
      (if line.IsEof then some (TokenType.EOF, line.Indent + 1) else none) := by
  unfold Matcher.MatchEOF
  rcases h : line.IsEof with _ | _ <;> simp [h, Matcher.newTokenAtLocation]

/-- C10: the claim that the slicing of MatchTableRow stays within bounds for
every line whose trimmed text starts with the cell separator fails on the
line whose trimmed text is the single character bar: there the Go slice
expression ttxt[1 : len(ttxt)-1] takes the slice from 1 down to 0 and the
operation panics with a slice-bounds error, modelled as none. -/
theorem tablerow_lone_pipe_panics :
    lonePipeLine.StartsWith TABLE_CELL_SEPARATOR = true ∧
    (testMatcher.MatchTableRow lonePipeLine).isNone = true := by
  exact ⟨rfl, rfl⟩

end Gherkin
